import Mathlib

set_option maxHeartbeats 1000000

namespace ChatPdf

/-! Shallow embedding of the chatpdf-frontend real-time chat client
(`src/services/chat.ts`), the ChatPanel streaming-buffer callbacks
(`src/components/ChatPanel.tsx`), the axios API client with its
401 refresh-and-retry response interceptor and token storage
(`src/services/api.ts`), and `AuthService.login` (`src/services/auth.ts`). -/

/-- JavaScript fallback `s || d` for an optional string: `undefined`
and the empty string are falsy. -/
def jsOrStr : Option String → String → String
  | none, d => d
  | some s, d => if s = "" then d else s

/-- JavaScript fallback `x || d` for an optional rational: `undefined`
and `0` are falsy. -/
def jsOrRat : Option ℚ → ℚ → ℚ
  | none, d => d
  | some x, d => if x = 0 then d else x

/-- JavaScript fallback `x || d` for an optional natural number. -/
def jsOrNat : Option Nat → Nat → Nat
  | none, d => d
  | some n, d => if n = 0 then d else n

/-- String coercion of a possibly-undefined JavaScript value when it is
appended to a string: `undefined` coerces to the text "undefined". -/
def jsToStr : Option String → String
  | none => "undefined"
  | some s => s

/-- One retrieved document chunk attached to a `response_complete` event;
the fields `chunk.page` and `chunk.page_number` read by ChatPanel. -/
structure Chunk where
  page : Option Int
  page_number : Option Int
deriving DecidableEq, Repr

/-- Incoming WebSocket message: a JSON object tagged by a `type` string,
with the payload fields the client reads (absent fields are `none`). -/
structure WSMessage where
  type : String
  message_id : Option String := none
  token : Option String := none
  content : Option String := none
  chunks : Option (List Chunk) := none
  message : Option String := none
  timestamp : Option String := none
deriving DecidableEq, Repr

/-- Callback invocations the client can emit on its event surface. -/
inductive CallbackEvt where
  | onConnect
  | onDisconnect
  | onError
  | onToken (m : WSMessage)
  | onResponseComplete (m : WSMessage)
  | onChatError (m : WSMessage)
  | onMessage (m : WSMessage)
deriving DecidableEq, Repr

/-- Dispatch of `WebSocketChatClient.handleMessage`: the switch on
`data.type`. Cases that only log to the console emit no callback; the
default case forwards the message to `onMessage`. -/
def handleMessageEvents (data : WSMessage) : List CallbackEvt :=
  match data.type with
  | "connection" => []
  | "message_saved" => []
  | "response_start" => []
  | "token" => [.onToken data]
  | "chunks_retrieved" => []
  | "response_complete" => [.onResponseComplete data]
  | "settings_updated" => []
  | "error" => [.onChatError data]
  | _ => [.onMessage data]

/-- Raw frame delivered to `onmessage`: either text that `JSON.parse`
accepts as a message object, or text it rejects. -/
inductive RawPayload where
  | json (m : WSMessage)
  | notJson (s : String)
deriving DecidableEq, Repr

/-- Result of `JSON.parse` on the raw frame, `none` when parsing throws. -/
def parseWS : RawPayload → Option WSMessage
  | .json m => some m
  | .notJson _ => none

/-- Outgoing `chat_message` payload built by `sendMessage`. -/
structure WSChatPayload where
  type : String
  message : String
  model : String
  temperature : ℚ
  max_tokens : Nat
deriving DecidableEq, Repr

/-- Options argument of `sendMessage` and `updateSettings`. -/
structure SendOptions where
  model : Option String := none
  temperature : Option ℚ := none
  max_tokens : Option Nat := none
deriving DecidableEq, Repr

/-- Outgoing `settings_update` payload: `updateSettings` spreads the
given options verbatim, with no defaulting. -/
structure WSSettingsPayload where
  type : String
  model : Option String
  temperature : Option ℚ
  max_tokens : Option Nat
deriving DecidableEq, Repr

/-- A payload written to the socket with `ws.send`. -/
inductive OutPayload where
  | chat (p : WSChatPayload)
  | settings (p : WSSettingsPayload)
deriving DecidableEq, Repr

/-- Ready state of the underlying browser WebSocket object. -/
inductive WsReady where
  | connecting
  | opened
  | closing
  | closed
deriving DecidableEq, Repr

/-- Mutable fields of a `WebSocketChatClient` instance, together with the
list of payloads written to the socket so far. -/
structure ClientState where
  ws : Option WsReady
  reconnectAttempts : Nat
  isIntentionallyClosed : Bool
  sent : List OutPayload
deriving DecidableEq, Repr

/-- `maxReconnectAttempts = 5` in the client. -/
def maxReconnectAttempts : Nat := 5

/-- `reconnectInterval = 1000` milliseconds in the client. -/
def reconnectInterval : Nat := 1000

/-- Fresh client: no socket, zero attempts, flag clear. -/
def ClientState.start : ClientState := ⟨none, 0, false, []⟩

/-- Whether `this.ws` exists and `this.ws.readyState === WebSocket.OPEN`. -/
def isOpenState (s : ClientState) : Bool :=
  match s.ws with
  | some .opened => true
  | _ => false

/-- The `chat_message` payload `sendMessage` serializes: text plus the
generation options, each defaulted through JavaScript `||`. -/
def chatPayload (text : String) (opts : SendOptions) : WSChatPayload :=
  { type := "chat_message"
    message := text
    model := jsOrStr opts.model "standard"
    temperature := jsOrRat opts.temperature 0.7
    max_tokens := jsOrNat opts.max_tokens 2048 }

/-- `sendMessage(message, options)`: throws when the channel is absent or
not open, otherwise writes the serialized `chat_message` payload. -/
def sendMessageStep (s : ClientState) (text : String) (opts : SendOptions) :
    Except String ClientState :=
  if isOpenState s = false then
    .error "WebSocket is not connected"
  else
    .ok { s with sent := s.sent ++ [.chat (chatPayload text opts)] }

/-- `updateSettings(settings)`: throws when the channel is absent or not
open, otherwise writes a `settings_update` payload spreading the options. -/
def updateSettingsStep (s : ClientState) (opts : SendOptions) :
    Except String ClientState :=
  if isOpenState s = false then
    .error "WebSocket is not connected"
  else
    .ok { s with sent := s.sent ++ [.settings
      ⟨"settings_update", opts.model, opts.temperature, opts.max_tokens⟩] }

/-- Result of one event-loop step on the client: the new state, the delays
of the reconnect timers scheduled by the step, and the callbacks fired. -/
structure StepOut where
  state : ClientState
  scheduled : List Nat
  events : List CallbackEvt
deriving DecidableEq, Repr

/-- Operations and external events that can act on a client instance. -/
inductive ClientOp where
  | connectCall
  | wsOpen
  | wsClose (code : Nat)
  | wsError
  | timerFire
  | disconnect
  | wsMessage (raw : RawPayload)
  | send (text : String) (opts : SendOptions)
  | settings (opts : SendOptions)
deriving DecidableEq, Repr

/-- One step of the client event machine, mirroring the handlers installed
in `connect()` plus the public methods. The `wsClose` case embeds the
`onclose` handler: it fires `onDisconnect` and, when the closure was not
intentional and fewer than `maxReconnectAttempts` attempts were made,
schedules exactly one reconnect timer with delay
`reconnectInterval * reconnectAttempts`; the attempt counter is only
incremented later, when that timer fires (`timerFire`). The close code is
ignored by the handler. The `onopen` handler resets the attempt counter.
A thrown send or settings error propagates to the caller and leaves the
client state unchanged. -/
def applyOp (s : ClientState) : ClientOp → StepOut
  | .connectCall => ⟨{ s with ws := some .connecting }, [], []⟩
  | .wsOpen => ⟨{ s with ws := some .opened, reconnectAttempts := 0 }, [], [.onConnect]⟩
  | .wsClose _ =>
    if s.isIntentionallyClosed = false ∧ s.reconnectAttempts < maxReconnectAttempts then
      ⟨{ s with ws := s.ws.map fun _ => .closed },
        [reconnectInterval * s.reconnectAttempts], [.onDisconnect]⟩
    else
      ⟨{ s with ws := s.ws.map fun _ => .closed }, [], [.onDisconnect]⟩
  | .wsError => ⟨s, [], [.onError]⟩
  | .timerFire =>
    ⟨{ s with reconnectAttempts := s.reconnectAttempts + 1, ws := some .connecting }, [], []⟩
  | .disconnect => ⟨{ s with isIntentionallyClosed := true, ws := none }, [], []⟩
  | .wsMessage raw =>
    match parseWS raw with
    | none => ⟨s, [], []⟩
    | some m => ⟨s, [], handleMessageEvents m⟩
  | .send text opts =>
    match sendMessageStep s text opts with
    | .ok s' => ⟨s', [], []⟩
    | .error _ => ⟨s, [], []⟩
  | .settings opts =>
    match updateSettingsStep s opts with
    | .ok s' => ⟨s', [], []⟩
    | .error _ => ⟨s, [], []⟩

/-- Run a sequence of operations from a state, accumulating every
scheduled reconnect delay in order. -/
def runOps (s : ClientState) : List ClientOp → ClientState × List Nat
  | [] => (s, [])
  | op :: ops =>
    let out := applyOp s op
    let rest := runOps out.state ops
    (rest.1, out.scheduled ++ rest.2)

theorem sendMessageStep_ok (s s' : ClientState) (text : String) (opts : SendOptions)
    (h : sendMessageStep s text opts = .ok s') :
    s' = { s with sent := s.sent ++ [.chat (chatPayload text opts)] } := by
  unfold sendMessageStep at h
  split at h
  · cases h
  · cases h
    rfl

theorem updateSettingsStep_ok (s s' : ClientState) (opts : SendOptions)
    (h : updateSettingsStep s opts = .ok s') :
    s' = { s with sent := s.sent ++ [.settings
      ⟨"settings_update", opts.model, opts.temperature, opts.max_tokens⟩] } := by
  unfold updateSettingsStep at h
  split at h
  · cases h
  · cases h
    rfl

/-- Every operation except `disconnect` leaves the flag exactly as it was. -/
theorem applyOp_flag_eq (s : ClientState) (op : ClientOp) (h : op ≠ .disconnect) :
    (applyOp s op).state.isIntentionallyClosed = s.isIntentionallyClosed := by
  cases op with
  | disconnect => exact absurd rfl h
  | wsClose code =>
    by_cases hc : s.isIntentionallyClosed = false ∧ s.reconnectAttempts < maxReconnectAttempts
    · simp [applyOp, hc]
    · simp [applyOp, hc]
  | wsMessage raw => cases raw <;> simp [applyOp, parseWS]
  | send text opts =>
    show (match sendMessageStep s text opts with
      | .ok s' => StepOut.mk s' [] []
      | .error _ => StepOut.mk s [] []).state.isIntentionallyClosed = _
    cases hs : sendMessageStep s text opts with
    | ok s' => rw [sendMessageStep_ok s s' text opts hs]
    | error e => rfl
  | settings opts =>
    show (match updateSettingsStep s opts with
      | .ok s' => StepOut.mk s' [] []
      | .error _ => StepOut.mk s [] []).state.isIntentionallyClosed = _
    cases hs : updateSettingsStep s opts with
    | ok s' => rw [updateSettingsStep_ok s s' opts hs]
    | error e => rfl
  | _ => rfl

/-- With the flag set, one step keeps it set and schedules nothing. -/
theorem applyOp_flag_mono (s : ClientState) (op : ClientOp)
    (h : s.isIntentionallyClosed = true) :
    (applyOp s op).state.isIntentionallyClosed = true ∧
      (applyOp s op).scheduled = [] := by
  constructor
  · cases hop : op with
    | disconnect => rfl
    | _ => rw [applyOp_flag_eq s _ (by simp)]; exact h
  · cases op with
    | wsClose code => simp [applyOp, h]
    | wsMessage raw => cases raw <;> simp [applyOp, parseWS]
    | send text opts =>
      show (match sendMessageStep s text opts with
        | .ok s' => StepOut.mk s' [] []
        | .error _ => StepOut.mk s [] []).scheduled = []
      cases sendMessageStep s text opts <;> rfl
    | settings opts =>
      show (match updateSettingsStep s opts with
        | .ok s' => StepOut.mk s' [] []
        | .error _ => StepOut.mk s [] []).scheduled = []
      cases updateSettingsStep s opts <;> rfl
    | _ => rfl

/-- Once the intentional-close flag is set, every later trace keeps the
flag set and never schedules a reconnect timer. -/
theorem flag_invariant (ops : List ClientOp) :
    ∀ s : ClientState, s.isIntentionallyClosed = true →
      (runOps s ops).1.isIntentionallyClosed = true ∧ (runOps s ops).2 = [] := by
  induction ops with
  | nil => intro s h; exact ⟨h, rfl⟩
  | cons op ops ih =>
    intro s h
    obtain ⟨h1, h2⟩ := applyOp_flag_mono s op h
    obtain ⟨h3, h4⟩ := ih (applyOp s op).state h1
    exact ⟨h3, by simp [runOps, h2, h4]⟩

/-- Unexpected close with the flag clear and attempts below the maximum
schedules exactly one reconnect timer, with delay equal to the prior
attempt count times the base interval. -/
theorem close_schedules_one (s : ClientState) (code : Nat)
    (hflag : s.isIntentionallyClosed = false)
    (hatt : s.reconnectAttempts < maxReconnectAttempts) :
    (applyOp s (.wsClose code)).scheduled
      = [reconnectInterval * s.reconnectAttempts] := by
  simp [applyOp, hflag, hatt]

/-- C2 counterexample: at the very first unexpected close of a fresh
connection the prior attempt count is 0, so the code schedules the first
reconnection attempt with delay `1000 * 0 = 0` milliseconds, while the
claim predicts `1 * 1000 = 1000` milliseconds for attempt number 1. -/
theorem c2_counterexample :
    (applyOp ⟨some .opened, 0, false, []⟩ (.wsClose 1006)).scheduled = [0]
      ∧ (0 : Nat) ≠ 1 * 1000 := by
  constructor
  · rfl
  · decide

/-- C2 amended: for every unexpected close (flag clear) with prior
reconnection-attempt count strictly less than 5, exactly one reconnection
attempt is scheduled, and its delay is `(attempt_number - 1) * base_delay`
where `attempt_number = prior_count + 1` is the ordinal of the scheduled
attempt (so the first reconnection is immediate, the second waits 1000 ms,
up to 4000 ms for the fifth). -/
theorem c2_reconnect_backoff (s : ClientState) (code : Nat)
    (hflag : s.isIntentionallyClosed = false)
    (hatt : s.reconnectAttempts < maxReconnectAttempts) :
    (applyOp s (.wsClose code)).scheduled
      = [((s.reconnectAttempts + 1) - 1) * reconnectInterval] := by
  rw [close_schedules_one s code hflag hatt]
  simp [Nat.mul_comm]

theorem c2_reconnect_backoff_witness :
    (applyOp ⟨some .opened, 2, false, []⟩ (.wsClose 1001)).scheduled
      = [((2 + 1) - 1) * reconnectInterval] :=
  c2_reconnect_backoff ⟨some .opened, 2, false, []⟩ 1001 rfl (by decide)

/-- C3: after `disconnect()` has been called, no close event — and no
other operation — ever schedules an automatic reconnection attempt: the
entire subsequent trace of the client schedules nothing, whatever the
close codes. -/
theorem c3_no_reconnect_after_disconnect (s : ClientState) (ops : List ClientOp) :
    (runOps (applyOp s .disconnect).state ops).2 = [] :=
  (flag_invariant ops (applyOp s .disconnect).state rfl).2

/-- C4: `sendMessage` and `updateSettings` on a client whose channel is
null or not OPEN throw the connection error to the caller, and the event
step built on them transmits nothing and leaves the state unchanged. -/
theorem c4_send_on_closed_throws (s : ClientState) (text : String)
    (opts : SendOptions) (h : isOpenState s = false) :
    sendMessageStep s text opts = .error "WebSocket is not connected"
      ∧ updateSettingsStep s opts = .error "WebSocket is not connected"
      ∧ applyOp s (.send text opts) = ⟨s, [], []⟩
      ∧ applyOp s (.settings opts) = ⟨s, [], []⟩ := by
  refine ⟨?_, ?_, ?_, ?_⟩ <;>
    simp [applyOp, sendMessageStep, updateSettingsStep, h]

theorem c4_send_on_closed_throws_witness :
    sendMessageStep ClientState.start "hello" {} = .error "WebSocket is not connected"
      ∧ updateSettingsStep ClientState.start {} = .error "WebSocket is not connected"
      ∧ applyOp ClientState.start (.send "hello" {}) = ⟨ClientState.start, [], []⟩
      ∧ applyOp ClientState.start (.settings {}) = ⟨ClientState.start, [], []⟩ :=
  c4_send_on_closed_throws ClientState.start "hello" {} rfl

/-- C5: an incoming payload that is not valid JSON is dropped inside the
message handler: the handler returns normally, fires no callback, and the
client state (attempt counter, flag, channel, sent list) is unchanged. -/
theorem c5_malformed_payload_dropped (s : ClientState) (raw : String) :
    applyOp s (.wsMessage (.notJson raw)) = ⟨s, [], []⟩ := rfl

/-- C7: a channel error event fires exactly the `onError` callback and
changes no client state — in particular the intentional-close flag stays
false — so an unexpected close right after it still schedules its one
reconnect per the backoff policy; and no operation other than
`disconnect` can turn the flag on. -/
theorem c7_error_leaves_flag (s : ClientState) (code : Nat) (op : ClientOp)
    (hflag : s.isIntentionallyClosed = false)
    (hatt : s.reconnectAttempts < maxReconnectAttempts) :
    applyOp s .wsError = ⟨s, [], [.onError]⟩
      ∧ (applyOp (applyOp s .wsError).state (.wsClose code)).scheduled
          = [reconnectInterval * s.reconnectAttempts]
      ∧ ((applyOp s op).state.isIntentionallyClosed = true → op = .disconnect) := by
  refine ⟨rfl, close_schedules_one s code hflag hatt, ?_⟩
  intro hset
  by_contra hne
  rw [applyOp_flag_eq s op hne, hflag] at hset
  cases hset

theorem c7_error_leaves_flag_witness :
    applyOp ⟨some .opened, 1, false, []⟩ .wsError
        = ⟨⟨some .opened, 1, false, []⟩, [], [.onError]⟩
      ∧ (applyOp (applyOp ⟨some .opened, 1, false, []⟩ .wsError).state
          (.wsClose 1006)).scheduled = [reconnectInterval * 1] :=
  ⟨(c7_error_leaves_flag ⟨some .opened, 1, false, []⟩ 1006 .wsError rfl (by decide)).1,
   (c7_error_leaves_flag ⟨some .opened, 1, false, []⟩ 1006 .wsError rfl (by decide)).2.1⟩

/-- C8: the intentional-close flag set by `disconnect()` is never cleared
by any later operation — `connectCall` in particular preserves the flag —
so after one `disconnect` the whole subsequent trace, even one beginning
with a fresh `connect()` call, keeps the flag set and schedules no
reconnection. -/
theorem c8_flag_permanent (s : ClientState) (ops : List ClientOp) :
    (runOps (applyOp s .disconnect).state ops).1.isIntentionallyClosed = true
      ∧ (applyOp s .connectCall).state.isIntentionallyClosed
          = s.isIntentionallyClosed
      ∧ (runOps (applyOp s .disconnect).state (.connectCall :: ops)).2 = [] :=
  ⟨(flag_invariant ops (applyOp s .disconnect).state rfl).1,
   rfl,
   (flag_invariant (.connectCall :: ops) (applyOp s .disconnect).state rfl).2⟩

/-- C9: on an open channel `sendMessage` transmits exactly one
`chat_message` payload carrying the given text, where each generation
option is defaulted through JavaScript `||`: an absent or falsy model,
temperature or token budget is replaced by "standard", 0.7 and 2048 — in
particular an explicitly supplied temperature 0 or max_tokens 0 is
silently replaced by its default. -/
theorem c9_send_payload_defaults (s : ClientState) (text : String)
    (opts : SendOptions) (h : isOpenState s = true) :
    sendMessageStep s text opts
        = .ok { s with sent := s.sent ++ [.chat (chatPayload text opts)] }
      ∧ (chatPayload text opts).type = "chat_message"
      ∧ (chatPayload text opts).message = text
      ∧ (opts.model = none → (chatPayload text opts).model = "standard")
      ∧ (opts.model = some "" → (chatPayload text opts).model = "standard")
      ∧ (∀ m, opts.model = some m → m ≠ "" → (chatPayload text opts).model = m)
      ∧ (opts.temperature = none → (chatPayload text opts).temperature = 0.7)
      ∧ (opts.temperature = some 0 → (chatPayload text opts).temperature = 0.7)
      ∧ (∀ t, opts.temperature = some t → t ≠ 0 →
          (chatPayload text opts).temperature = t)
      ∧ (opts.max_tokens = none → (chatPayload text opts).max_tokens = 2048)
      ∧ (opts.max_tokens = some 0 → (chatPayload text opts).max_tokens = 2048)
      ∧ (∀ n, opts.max_tokens = some n → n ≠ 0 →
          (chatPayload text opts).max_tokens = n) := by
  refine ⟨by simp [sendMessageStep, h], rfl, rfl, ?_, ?_, ?_, ?_, ?_, ?_, ?_, ?_, ?_⟩
  · intro hm; simp [chatPayload, jsOrStr, hm]
  · intro hm; simp [chatPayload, jsOrStr, hm]
  · intro m hm hne; simp [chatPayload, jsOrStr, hm, hne]
  · intro ht; simp [chatPayload, jsOrRat, ht]
  · intro ht; simp [chatPayload, jsOrRat, ht]
  · intro t ht hne; simp [chatPayload, jsOrRat, ht, hne]
  · intro hn; simp [chatPayload, jsOrNat, hn]
  · intro hn; simp [chatPayload, jsOrNat, hn]
  · intro n hn hne; simp [chatPayload, jsOrNat, hn, hne]

theorem c9_send_payload_defaults_witness :
    sendMessageStep ⟨some .opened, 0, false, []⟩ "hi" ⟨none, some 0, some 0⟩
        = .ok ⟨some .opened, 0, false,
            [.chat (chatPayload "hi" ⟨none, some 0, some 0⟩)]⟩
      ∧ (chatPayload "hi" ⟨none, some 0, some 0⟩).model = "standard"
      ∧ (chatPayload "hi" ⟨none, some 0, some 0⟩).temperature = 0.7
      ∧ (chatPayload "hi" ⟨none, some 0, some 0⟩).max_tokens = 2048 :=
  ⟨(c9_send_payload_defaults ⟨some .opened, 0, false, []⟩ "hi"
      ⟨none, some 0, some 0⟩ rfl).1,
   (c9_send_payload_defaults ⟨some .opened, 0, false, []⟩ "hi"
      ⟨none, some 0, some 0⟩ rfl).2.2.2.1 rfl,
   (c9_send_payload_defaults ⟨some .opened, 0, false, []⟩ "hi"
      ⟨none, some 0, some 0⟩ rfl).2.2.2.2.2.2.2.1 rfl,
   (c9_send_payload_defaults ⟨some .opened, 0, false, []⟩ "hi"
      ⟨none, some 0, some 0⟩ rfl).2.2.2.2.2.2.2.2.2.2.1 rfl⟩

/-- Display message appended to the conversation by ChatPanel when a
`response_complete` event arrives. -/
structure DisplayMessage where
  id : Option String
  content : Option String
  pageReferences : List Int
  timestamp : Option String
deriving DecidableEq, Repr

/-- Effective page of a chunk, `chunk.page || chunk.page_number` with
JavaScript falsiness: a stored 0 falls through to `page_number`. -/
def chunkPage (c : Chunk) : Option Int :=
  match c.page with
  | some n => if n = 0 then c.page_number else some n
  | none => c.page_number

/-- Page references extracted on completion: map the chunks to their
pages, keep the numeric pages greater than 0, deduplicate and sort
ascending (an absent chunks field yields the empty list). -/
def extractPages (chunks : Option (List Chunk)) : List Int :=
  match chunks with
  | none => []
  | some l =>
    (((l.map chunkPage).filterMap fun p =>
      match p with
      | some n => if 0 < n then some n else none
      | none => none).dedup).mergeSort (fun a b => a ≤ b)

/-- UI state of ChatPanel touched by the WebSocket callbacks. -/
structure PanelState where
  streamingMessage : String
  displayed : List DisplayMessage
  isGenerating : Bool
deriving DecidableEq, Repr

/-- The completed assistant message ChatPanel builds in its
`onResponseComplete` handler: every field comes from the completion event
itself — the content is `data.content`, never the streaming buffer. -/
def completedMessage (m : WSMessage) : DisplayMessage :=
  { id := m.message_id
    content := m.content
    pageReferences := extractPages m.chunks
    timestamp := m.timestamp }

/-- Effect of one client callback on the panel state, as the handlers
installed by the chat setup effect in ChatPanel: `onToken` appends the
fragment to the streaming buffer, `onResponseComplete` appends the
completed message and clears the buffer, `onChatError` clears the buffer;
the remaining callbacks touch none of the fields modelled here. -/
def panelEvent (st : PanelState) : CallbackEvt → PanelState
  | .onToken m =>
    { st with streamingMessage := st.streamingMessage ++ jsToStr m.token }
  | .onResponseComplete m =>
    { st with displayed := st.displayed ++ [completedMessage m]
              streamingMessage := ""
              isGenerating := false }
  | .onChatError _ => { st with streamingMessage := "", isGenerating := false }
  | _ => st

/-- Delivery of one incoming WebSocket message to the panel: the client
dispatch `handleMessage` applied through the panel callbacks. -/
def panelStep (st : PanelState) (m : WSMessage) : PanelState :=
  (handleMessageEvents m).foldl panelEvent st

/-- A well-formed `token` event carrying the fragment `t`. -/
def tokenMsg (t : String) : WSMessage := { type := "token", token := some t }

/-- A `response_complete` event with the given id, final content, chunks
and timestamp. -/
def completeMsg (msgId content ts : String) (chunks : List Chunk) : WSMessage :=
  { type := "response_complete", message_id := some msgId,
    content := some content, chunks := some chunks, timestamp := some ts }

/-- Concatenation of a list of fragments in order. -/
def concatStrings : List String → String
  | [] => ""
  | t :: ts => t ++ concatStrings ts

theorem string_append_assoc (a b c : String) : a ++ b ++ c = a ++ (b ++ c) := by
  cases a with
  | mk da =>
    cases b with
    | mk db =>
      cases c with
      | mk dc =>
        show String.mk ((da ++ db) ++ dc) = String.mk (da ++ (db ++ dc))
        rw [List.append_assoc]

theorem panelStep_token (st : PanelState) (t : String) :
    panelStep st (tokenMsg t)
      = { st with streamingMessage := st.streamingMessage ++ t } := rfl

/-- Folding a run of token events only extends the streaming buffer by the
concatenation of the fragments, in order. -/
theorem panel_tokens_fold (toks : List String) (st : PanelState) :
    (toks.map tokenMsg).foldl panelStep st
      = { st with streamingMessage := st.streamingMessage ++ concatStrings toks } := by
  induction toks generalizing st with
  | nil =>
    show st = _
    cases st with
    | mk sm d g =>
      show PanelState.mk sm d g = PanelState.mk (sm ++ "") d g
      rw [String.append_empty]
  | cons t ts ih =>
    show ((ts.map tokenMsg).foldl panelStep (panelStep st (tokenMsg t))) = _
    rw [panelStep_token, ih]
    show PanelState.mk (st.streamingMessage ++ t ++ concatStrings ts) _ _ = _
    rw [string_append_assoc]
    rfl

/-- C1: for every run of `token` events followed by one
`response_complete` event on a connection whose panel buffer starts
empty, the streaming buffer immediately before completion is exactly the
concatenation of the token fragments in received order; the completion
event resets the buffer to empty and appends an assistant message whose
content is the completion event content field, not the buffer. -/
theorem c1_stream_reassembly (toks : List String) (d : List DisplayMessage)
    (g : Bool) (msgId content ts : String) (chunks : List Chunk) :
    ((toks.map tokenMsg).foldl panelStep ⟨"", d, g⟩).streamingMessage
        = concatStrings toks
      ∧ (panelStep ((toks.map tokenMsg).foldl panelStep ⟨"", d, g⟩)
          (completeMsg msgId content ts chunks)).streamingMessage = ""
      ∧ (panelStep ((toks.map tokenMsg).foldl panelStep ⟨"", d, g⟩)
          (completeMsg msgId content ts chunks)).displayed
        = d ++ [completedMessage (completeMsg msgId content ts chunks)]
      ∧ (completedMessage (completeMsg msgId content ts chunks)).content
        = some content := by
  rw [panel_tokens_fold toks ⟨"", d, g⟩]
  refine ⟨?_, rfl, rfl, rfl⟩
  show "" ++ concatStrings toks = concatStrings toks
  rw [String.empty_append]

/-- Browser localStorage entries managed by `TokenManager`: the access
token, the refresh token, the serialized user record, and the persisted
auth-store entry. `none` means the key is absent. -/
structure Storage where
  access : Option String
  refresh : Option String
  user : Option String
  authStore : Option String
deriving DecidableEq, Repr

/-- `TokenManager.setTokens(accessToken, refreshToken, user?)`: stores
both tokens and, when a user value is given, the serialized user; the
auth-store entry is untouched. -/
def setTokens (st : Storage) (a r : String) (u : Option String) : Storage :=
  { st with access := some a, refresh := some r,
            user := match u with | some v => some v | none => st.user }

/-- `TokenManager.clearTokens()`: removes all four stored keys. -/
def clearTokensStep (_ : Storage) : Storage := ⟨none, none, none, none⟩

/-- Outcome of the refresh POST to the auth refresh endpoint: a response
carrying a new access token, an optional new refresh token and an
optional user record, or a thrown request error. -/
inductive RefreshResp where
  | ok (access : String) (refresh : Option String) (user : Option String)
  | fail
deriving DecidableEq, Repr

/-- `ApiClient.refreshToken()`: returns false without any network call
when no refresh token is stored; on a successful refresh response stores
the new access token — keeping the old refresh token when the response
carries none (or an empty one) — and returns true; on a thrown refresh
error returns false leaving storage unchanged. -/
def refreshTokenStep (st : Storage) (rr : RefreshResp) : Bool × Storage :=
  match st.refresh with
  | none => (false, st)
  | some old =>
    match rr with
    | .fail => (false, st)
    | .ok a r u => (true, setTokens st a (jsOrStr r old) u)

/-- The HTTP error response attached to an axios error, when the server
responded: its status and the resolved error message. -/
structure ErrResp where
  status : Nat
  message : String
deriving DecidableEq, Repr

/-- An axios error: the optional server response, whether a request was
actually sent (distinguishing network from setup errors), and the raw
error message. -/
structure AxErr where
  response : Option ErrResp
  hasRequest : Bool
  message : String
deriving DecidableEq, Repr

/-- An `ApiException` raised to the caller. -/
structure ApiExc where
  message : String
  status : Option Nat
deriving DecidableEq, Repr

/-- `ApiClient.handleError`: a server response becomes an `ApiException`
with its status and message; no response with a sent request is a network
error; otherwise a request setup error. -/
def handleErrorStep (e : AxErr) : ApiExc :=
  match e.response with
  | some r => ⟨r.message, some r.status⟩
  | none =>
    if e.hasRequest then ⟨"Network error: No response received", none⟩
    else ⟨"Request error: " ++ e.message, none⟩

/-- What the response interceptor does with a failed request: re-issue the
original request once (with this Authorization header and with its retry
flag now set), or raise an exception to the caller. -/
inductive InterceptOutcome where
  | retryRequest (authHeader : String) (retriedFlag : Bool)
  | raiseExc (e : ApiExc)
deriving DecidableEq, Repr

/-- Result of running the response interceptor on a failed request: the
storage afterwards, how many times `refreshToken` was invoked, and the
outcome for the caller. -/
structure InterceptResult where
  storage : Storage
  refreshCalls : Nat
  outcome : InterceptOutcome
deriving DecidableEq, Repr

/-- The guard of the refresh branch:
`error.response?.status === 401 && !originalRequest._retry`. -/
def is401NotRetried (e : AxErr) (retried : Bool) : Bool :=
  (match e.response with
   | some r => r.status == 401
   | none => false) && !retried

/-- The `ApiClient` response interceptor: on a 401 whose request was not
yet retried it marks the request as retried and calls `refreshToken`
exactly once; on refresh success it re-issues the original request with a
Bearer header built from the freshly stored access token; on refresh
failure it clears all stored credentials and raises an authentication
`ApiException` with status 401. Every other error goes to `handleError`
untouched. -/
def responseInterceptor (st : Storage) (e : AxErr) (retried : Bool)
    (rr : RefreshResp) : InterceptResult :=
  if is401NotRetried e retried then
    let res := refreshTokenStep st rr
    if res.1 then
      ⟨res.2, 1, .retryRequest ("Bearer " ++ jsToStr res.2.access) true⟩
    else
      ⟨clearTokensStep res.2, 1, .raiseExc ⟨"Authentication failed", some 401⟩⟩
  else
    ⟨st, 0, .raiseExc (handleErrorStep e)⟩

theorem is401NotRetried_true (e : AxErr) (h : e.response.map ErrResp.status = some 401) :
    is401NotRetried e false = true := by
  cases hr : e.response with
  | none => rw [hr] at h; cases h
  | some r =>
    rw [hr] at h
    simp at h
    simp [is401NotRetried, hr, h]

/-- C6: a 401 on a not-yet-retried request triggers exactly one
`refreshToken` call; if the refresh succeeds the original request is
re-issued exactly once, marked retried, with the Bearer header built from
the newly stored access token; if the refresh fails, every stored
credential (access, refresh, user, auth-store) is cleared and an
authentication error with status 401 is raised; and a request already
marked retried is never refreshed or retried again — it goes straight to
`handleError`. -/
theorem c6_refresh_retry_once (st : Storage) (e : AxErr) (retried : Bool)
    (rr : RefreshResp) (h401 : e.response.map ErrResp.status = some 401) :
    (retried = false →
      (responseInterceptor st e false rr).refreshCalls = 1
        ∧ ((refreshTokenStep st rr).1 = true →
            (responseInterceptor st e false rr).storage = (refreshTokenStep st rr).2
              ∧ (responseInterceptor st e false rr).outcome
                = .retryRequest
                    ("Bearer " ++ jsToStr (refreshTokenStep st rr).2.access) true)
        ∧ ((refreshTokenStep st rr).1 = false →
            (responseInterceptor st e false rr).storage = ⟨none, none, none, none⟩
              ∧ (responseInterceptor st e false rr).outcome
                = .raiseExc ⟨"Authentication failed", some 401⟩))
      ∧ (retried = true →
          responseInterceptor st e true rr
            = ⟨st, 0, .raiseExc (handleErrorStep e)⟩) := by
  constructor
  · intro _
    have hg := is401NotRetried_true e h401
    refine ⟨?_, ?_, ?_⟩
    · simp [responseInterceptor, hg]
      split <;> rfl
    · intro hok
      simp [responseInterceptor, hg, hok]
    · intro hko
      simp [responseInterceptor, hg, hko, clearTokensStep]
  · intro _
    have : is401NotRetried e true = false := by
      simp [is401NotRetried]
    simp [responseInterceptor, this]

theorem c6_refresh_retry_once_witness :
    (responseInterceptor ⟨some "acc", some "ref", some "u", some "as"⟩
        ⟨some ⟨401, "Unauthorized"⟩, true, "Unauthorized"⟩ false .fail).refreshCalls = 1
      ∧ (responseInterceptor ⟨some "acc", some "ref", some "u", some "as"⟩
          ⟨some ⟨401, "Unauthorized"⟩, true, "Unauthorized"⟩ false .fail).storage
        = ⟨none, none, none, none⟩
      ∧ (responseInterceptor ⟨some "acc", some "ref", some "u", some "as"⟩
          ⟨some ⟨401, "Unauthorized"⟩, true, "Unauthorized"⟩ false .fail).outcome
        = .raiseExc ⟨"Authentication failed", some 401⟩
      ∧ responseInterceptor ⟨some "acc", some "ref", some "u", some "as"⟩
          ⟨some ⟨401, "Unauthorized"⟩, true, "Unauthorized"⟩ true .fail
        = ⟨⟨some "acc", some "ref", some "u", some "as"⟩, 0,
            .raiseExc ⟨"Unauthorized", some 401⟩⟩ :=
  ⟨((c6_refresh_retry_once ⟨some "acc", some "ref", some "u", some "as"⟩
      ⟨some ⟨401, "Unauthorized"⟩, true, "Unauthorized"⟩ false .fail rfl).1 rfl).1,
   (((c6_refresh_retry_once ⟨some "acc", some "ref", some "u", some "as"⟩
      ⟨some ⟨401, "Unauthorized"⟩, true, "Unauthorized"⟩ false .fail rfl).1 rfl).2.2 rfl).1,
   (((c6_refresh_retry_once ⟨some "acc", some "ref", some "u", some "as"⟩
      ⟨some ⟨401, "Unauthorized"⟩, true, "Unauthorized"⟩ false .fail rfl).1 rfl).2.2 rfl).2,
   ((c6_refresh_retry_once ⟨some "acc", some "ref", some "u", some "as"⟩
      ⟨some ⟨401, "Unauthorized"⟩, true, "Unauthorized"⟩ true .fail rfl).2 rfl)⟩

/-- Outcome of the login POST: the request threw an `ApiException`, or a
response arrived whose `access`, `refresh` and `user` fields may each be
absent (for the two token strings, an empty string is also possible). The
user field stands for the user object, truthy whenever present. -/
inductive LoginOutcome where
  | failed (exc : ApiExc)
  | ok (access : Option String) (refresh : Option String) (user : Option String)
deriving DecidableEq, Repr

/-- The validation `AuthService.login` applies before storing anything:
`!response.access || !response.refresh || !response.user` must be false,
so both tokens must be present and non-empty and the user present. -/
def validLoginResp : LoginOutcome → Bool
  | .failed _ => false
  | .ok a r u =>
    (match a with | some s => s != "" | none => false)
      && (match r with | some s => s != "" | none => false)
      && (match u with | some _ => true | none => false)

/-- `AuthService.login`: on a response passing validation it stores the
tokens and user and returns the response; any failure — thrown request,
or a response failing validation — lands in the catch block, which clears
all stored tokens before re-raising an `ApiException`. -/
def loginStep (st : Storage) (out : LoginOutcome) :
    Storage × Except ApiExc Unit :=
  match out with
  | .failed exc => (clearTokensStep st, .error exc)
  | .ok a r u =>
    if validLoginResp (.ok a r u) then
      (setTokens st (jsToStr a) (jsToStr r) u, .ok ())
    else
      (clearTokensStep st,
        .error ⟨"Invalid server response: missing required fields", none⟩)

/-- C10: login stores credentials only when the server response carries
all of access, refresh and user (validated before storing, and then the
stored tokens are exactly the response fields); and on any failure —
thrown request or invalid response — every stored credential is cleared,
so after a failed login no access or refresh token remains in storage. -/
theorem c10_login_clears_on_failure (st : Storage) (out : LoginOutcome) :
    ((loginStep st out).2 = .ok () →
      validLoginResp out = true
        ∧ ∀ a r u, out = .ok a r u →
            (loginStep st out).1 = setTokens st (jsToStr a) (jsToStr r) u)
      ∧ (∀ exc, (loginStep st out).2 = .error exc →
          (loginStep st out).1 = ⟨none, none, none, none⟩) := by
  constructor
  · intro hok
    cases out with
    | failed exc => cases hok
    | ok a r u =>
      by_cases hv : validLoginResp (.ok a r u) = true
      · refine ⟨hv, ?_⟩
        intro a' r' u' he
        cases he
        simp [loginStep, hv]
      · exfalso
        rw [show (loginStep st (.ok a r u))
              = (clearTokensStep st,
                  .error ⟨"Invalid server response: missing required fields", none⟩)
            from by simp [loginStep, hv]] at hok
        cases hok
  · intro exc herr
    cases out with
    | failed e => rfl
    | ok a r u =>
      by_cases hv : validLoginResp (.ok a r u) = true
      · rw [show (loginStep st (.ok a r u))
              = (setTokens st (jsToStr a) (jsToStr r) u, .ok ())
            from by simp [loginStep, hv]] at herr
        cases herr
      · simp [loginStep, hv, clearTokensStep]

theorem c10_login_clears_on_failure_witness :
    (loginStep ⟨some "oldacc", some "oldref", some "u", some "as"⟩
        (.ok (some "tok") none (some "u"))).1 = ⟨none, none, none, none⟩
      ∧ (loginStep ⟨some "oldacc", some "oldref", some "u", some "as"⟩
          (.failed ⟨"Network error: No response received", none⟩)).1
        = ⟨none, none, none, none⟩ :=
  ⟨(c10_login_clears_on_failure ⟨some "oldacc", some "oldref", some "u", some "as"⟩
      (.ok (some "tok") none (some "u"))).2
      ⟨"Invalid server response: missing required fields", none⟩ rfl,
   (c10_login_clears_on_failure ⟨some "oldacc", some "oldref", some "u", some "as"⟩
      (.failed ⟨"Network error: No response received", none⟩)).2
      ⟨"Network error: No response received", none⟩ rfl⟩

end ChatPdf
